import Mathlib

/-!
Verification development for the FPP client library (`fppclient`).

The embedding models, from the source:
  * `src/fppclient/models.py` — the mashumaro-based domain records
    (`SystemStatus`, `Playlist`, `PlaylistItem`, `Sequence`, `Device`, …),
    their decode (`from_dict`) and encode (`to_dict`) behaviour, the
    `Device.__pre_deserialize__` bare-list normalization hook, and
    `Device.update_from_dict`;
  * `src/fppclient/fpp.py` — the `FPP` transport client: the
    `request()` response handling (status branching, content-type
    branching, JSON decoding), the `backoff.on_exception` retry wrapper,
    `update()`'s three-endpoint orchestration, and the session
    ownership / `close()` semantics;
  * the exception hierarchy (`src/fpp/exceptions.py`, the copy of the
    `exceptions` module shipped in this repository): in particular
    `FPPConnectionTimeoutError` is a subclass of `FPPConnectionError`,
    which itself subclasses `FPPError`.

JSON values are modelled by an inductive `Json`; Python dicts by
association lists in insertion order (keys are unique in all payloads
considered); Python floats by `ℚ`.  mashumaro's generated decoders are
modelled per their documented behaviour on the field layouts of
`models.py`: a missing key takes the dataclass default, unknown keys are
ignored, a present key is decoded by shape (ill-shaped values raise,
modelled as `Except.error`), and `from_dict` on a non-dict raises.
-/

namespace FPPClient

/-- JSON values as produced by `orjson.loads`: Python `int` and `float`
are distinct (`float` modelled by `ℚ`); objects keep key order. -/
inductive Json where
  | null : Json
  | bool (b : Bool) : Json
  | int (n : Int) : Json
  | float (q : ℚ) : Json
  | str (s : String) : Json
  | arr (elems : List Json) : Json
  | obj (members : List (String × Json)) : Json

/-- Python truthiness of a JSON-decoded value (`if not value`):
`None`, `False`, `0`, `0.0`, `""`, `[]`, and the empty dict are falsy. -/
def Json.truthy : Json → Bool
  | .null => false
  | .bool b => b
  | .int n => n != 0
  | .float q => q != 0
  | .str s => s != ""
  | .arr xs => !xs.isEmpty
  | .obj m => !m.isEmpty

/-- Python iteration over a JSON-decoded value (`for x in value`):
a list yields its elements, a string its characters, a dict its keys;
`None`, booleans and numbers raise `TypeError`. -/
def Json.iterate : Json → Except String (List Json)
  | .arr xs => .ok xs
  | .str s => .ok (s.toList.map fun c => .str (String.singleton c))
  | .obj m => .ok (m.map fun kv => .str kv.1)
  | _ => .error "TypeError: object is not iterable"

/-- Decode a JSON value as a Python `str` field. -/
def Json.asStr : Json → Except String String
  | .str s => .ok s
  | _ => .error "invalid value for str field"

/-- Decode a JSON value as a Python `int` field. -/
def Json.asInt : Json → Except String Int
  | .int n => .ok n
  | _ => .error "invalid value for int field"

/-- Decode a JSON value as a Python `float` field (`float(value)`
accepts ints as well). -/
def Json.asFloat : Json → Except String ℚ
  | .float q => .ok q
  | .int n => .ok (n : ℚ)
  | _ => .error "invalid value for float field"

/-- Decode a JSON value as a Python `bool` field. -/
def Json.asBool : Json → Except String Bool
  | .bool b => .ok b
  | _ => .error "invalid value for bool field"

/-- Decode every element of a list, left to right, failing on the first
error (the list comprehension `[f(x) for x in xs]` with a raising `f`). -/
def decodeEach (f : α → Except String β) : List α → Except String (List β)
  | [] => .ok []
  | x :: xs => do
    let y ← f x
    let ys ← decodeEach f xs
    .ok (y :: ys)

/-- Field extraction for a mashumaro dataclass field with a default:
a missing key yields the default, a present key is decoded (a decode
failure propagates).  Unknown keys are ignored simply by never being
looked up. -/
def getField (m : List (String × Json)) (key : String)
    (dec : Json → Except String α) (dflt : α) : Except String α :=
  match m.lookup key with
  | none => .ok dflt
  | some v => dec v

/-- The mashumaro element-wise decode of a `list[str]` field
(`[str elements of value]`; a non-list value raises). -/
def decodeStrList : Json → Except String (List String)
  | .arr xs => decodeEach Json.asStr xs
  | _ => .error "invalid value for list field"

/-- Field extraction for a required mashumaro dataclass field (no
default): a missing key raises `MissingField`. -/
def getRequired (m : List (String × Json)) (key : String) : Except String Json :=
  match m.lookup key with
  | none => .error ("MissingField: " ++ key)
  | some v => .ok v

/-- `CurrentPlaylist` record (models.py lines 55-72). -/
structure CurrentPlaylist where
  count : Int := 0
  description : String := ""
  index : Int := 0
  playlist : String := ""
  type : String := ""
deriving DecidableEq

/-- `CurrentPlaylist()` with every field defaulted. -/
def CurrentPlaylist.default : CurrentPlaylist := {}

/-- `CurrentPlaylist.from_dict`. -/
def CurrentPlaylist.from_json : Json → Except String CurrentPlaylist
  | .obj m => do
    let count ← getField m "count" Json.asInt 0
    let description ← getField m "description" Json.asStr ""
    let index ← getField m "index" Json.asInt 0
    let playlist ← getField m "playlist" Json.asStr ""
    let type ← getField m "type" Json.asStr ""
    .ok { count, description, index, playlist, type }
  | _ => .error "CurrentPlaylist.from_dict: argument is not a dict"

/-- `CurrentPlaylist.to_dict` (all fields populated, `omit_none` has
nothing to omit). -/
def CurrentPlaylist.to_json (c : CurrentPlaylist) : Json :=
  .obj [("count", .int c.count), ("description", .str c.description),
        ("index", .int c.index), ("playlist", .str c.playlist),
        ("type", .str c.type)]

/-- `MQTTStatus` record (models.py lines 75-80). -/
structure MQTTStatus where
  configured : Bool := false
  connected : Bool := false
deriving DecidableEq

/-- `MQTTStatus()` with every field defaulted. -/
def MQTTStatus.default : MQTTStatus := {}

/-- `MQTTStatus.from_dict`. -/
def MQTTStatus.from_json : Json → Except String MQTTStatus
  | .obj m => do
    let configured ← getField m "configured" Json.asBool false
    let connected ← getField m "connected" Json.asBool false
    .ok { configured, connected }
  | _ => .error "MQTTStatus.from_dict: argument is not a dict"

/-- `MQTTStatus.to_dict`. -/
def MQTTStatus.to_json (s : MQTTStatus) : Json :=
  .obj [("configured", .bool s.configured), ("connected", .bool s.connected)]

/-- `SystemStatusAdvanceViewUtilization` record (models.py lines 83-89). -/
structure SystemStatusAdvanceViewUtilization where
  CPU : ℚ := 0
  Memory : ℚ := 0
  Uptime : String := ""
deriving DecidableEq

/-- `SystemStatusAdvanceViewUtilization()` with every field defaulted. -/
def SystemStatusAdvanceViewUtilization.default : SystemStatusAdvanceViewUtilization := {}

/-- `SystemStatusAdvanceViewUtilization.from_dict`. -/
def SystemStatusAdvanceViewUtilization.from_json :
    Json → Except String SystemStatusAdvanceViewUtilization
  | .obj m => do
    let cpu ← getField m "CPU" Json.asFloat 0
    let memory ← getField m "Memory" Json.asFloat 0
    let uptime ← getField m "Uptime" Json.asStr ""
    .ok { CPU := cpu, Memory := memory, Uptime := uptime }
  | _ => .error "SystemStatusAdvanceViewUtilization.from_dict: argument is not a dict"

/-- `SystemStatusAdvanceViewUtilization.to_dict`. -/
def SystemStatusAdvanceViewUtilization.to_json
    (u : SystemStatusAdvanceViewUtilization) : Json :=
  .obj [("CPU", .float u.CPU), ("Memory", .float u.Memory),
        ("Uptime", .str u.Uptime)]

/-- `SystemStatusAdvanceView` record (models.py lines 92-116). -/
structure SystemStatusAdvanceView where
  HostName : String := ""
  HostDescription : String := ""
  Platform : String := ""
  Variant : String := ""
  Mode : String := ""
  Version : String := ""
  Branch : String := ""
  OSVersion : String := ""
  OSRelease : String := ""
  channelRanges : String := ""
  majorVersion : Int := 0
  minorVersion : Int := 0
  typeId : Int := 0
  Utilization : SystemStatusAdvanceViewUtilization :=
    SystemStatusAdvanceViewUtilization.default
  Kernel : String := ""
  LocalGitVersion : String := ""
  RemoteGitVersion : String := ""
  UpgradeSource : String := ""
  IPs : List String := []
deriving DecidableEq

/-- `SystemStatusAdvanceView()` with every field defaulted. -/
def SystemStatusAdvanceView.default : SystemStatusAdvanceView := {}

/-- `SystemStatusAdvanceView.from_dict`. -/
def SystemStatusAdvanceView.from_json : Json → Except String SystemStatusAdvanceView
  | .obj m => do
    let hostName ← getField m "HostName" Json.asStr ""
    let hostDescription ← getField m "HostDescription" Json.asStr ""
    let platform ← getField m "Platform" Json.asStr ""
    let variant ← getField m "Variant" Json.asStr ""
    let mode ← getField m "Mode" Json.asStr ""
    let version ← getField m "Version" Json.asStr ""
    let branch ← getField m "Branch" Json.asStr ""
    let osVersion ← getField m "OSVersion" Json.asStr ""
    let osRelease ← getField m "OSRelease" Json.asStr ""
    let channelRanges ← getField m "channelRanges" Json.asStr ""
    let majorVersion ← getField m "majorVersion" Json.asInt 0
    let minorVersion ← getField m "minorVersion" Json.asInt 0
    let typeId ← getField m "typeId" Json.asInt 0
    let utilization ← getField m "Utilization"
      SystemStatusAdvanceViewUtilization.from_json
      SystemStatusAdvanceViewUtilization.default
    let kernel ← getField m "Kernel" Json.asStr ""
    let localGitVersion ← getField m "LocalGitVersion" Json.asStr ""
    let remoteGitVersion ← getField m "RemoteGitVersion" Json.asStr ""
    let upgradeSource ← getField m "UpgradeSource" Json.asStr ""
    let ips ← getField m "IPs" decodeStrList []
    .ok { HostName := hostName, HostDescription := hostDescription,
          Platform := platform, Variant := variant, Mode := mode,
          Version := version, Branch := branch, OSVersion := osVersion,
          OSRelease := osRelease, channelRanges := channelRanges,
          majorVersion := majorVersion, minorVersion := minorVersion,
          typeId := typeId, Utilization := utilization, Kernel := kernel,
          LocalGitVersion := localGitVersion,
          RemoteGitVersion := remoteGitVersion,
          UpgradeSource := upgradeSource, IPs := ips }
  | _ => .error "SystemStatusAdvanceView.from_dict: argument is not a dict"

/-- `SystemStatusAdvanceView.to_dict`. -/
def SystemStatusAdvanceView.to_json (a : SystemStatusAdvanceView) : Json :=
  .obj [("HostName", .str a.HostName),
        ("HostDescription", .str a.HostDescription),
        ("Platform", .str a.Platform), ("Variant", .str a.Variant),
        ("Mode", .str a.Mode), ("Version", .str a.Version),
        ("Branch", .str a.Branch), ("OSVersion", .str a.OSVersion),
        ("OSRelease", .str a.OSRelease),
        ("channelRanges", .str a.channelRanges),
        ("majorVersion", .int a.majorVersion),
        ("minorVersion", .int a.minorVersion),
        ("typeId", .int a.typeId),
        ("Utilization", a.Utilization.to_json),
        ("Kernel", .str a.Kernel),
        ("LocalGitVersion", .str a.LocalGitVersion),
        ("RemoteGitVersion", .str a.RemoteGitVersion),
        ("UpgradeSource", .str a.UpgradeSource),
        ("IPs", .arr (a.IPs.map Json.str))]

/-- `SystemStatus` record (models.py lines 119-138).  The `volume`
field's alias is `"volume"`, identical to its name, so aliasing is the
identity here. -/
structure SystemStatus where
  MQTT : MQTTStatus := MQTTStatus.default
  fppd : String := ""
  mode : Int := 0
  mode_name : String := ""
  status_name : String := ""
  volume : Int := 0
  current_sequence : String := ""
  current_song : String := ""
  current_playlist : CurrentPlaylist := CurrentPlaylist.default
  seconds_played : Int := 0
  seconds_elapsed : Int := 0
  seconds_remaining : Int := 0
  repeat_mode : Int := 0
  advancedView : SystemStatusAdvanceView := SystemStatusAdvanceView.default
deriving DecidableEq

/-- `SystemStatus()` with every field defaulted. -/
def SystemStatus.default : SystemStatus := {}

/-- `SystemStatus.from_dict`. -/
def SystemStatus.from_json : Json → Except String SystemStatus
  | .obj m => do
    let mqtt ← getField m "MQTT" MQTTStatus.from_json MQTTStatus.default
    let fppd ← getField m "fppd" Json.asStr ""
    let mode ← getField m "mode" Json.asInt 0
    let mode_name ← getField m "mode_name" Json.asStr ""
    let status_name ← getField m "status_name" Json.asStr ""
    let volume ← getField m "volume" Json.asInt 0
    let current_sequence ← getField m "current_sequence" Json.asStr ""
    let current_song ← getField m "current_song" Json.asStr ""
    let current_playlist ← getField m "current_playlist"
      CurrentPlaylist.from_json CurrentPlaylist.default
    let seconds_played ← getField m "seconds_played" Json.asInt 0
    let seconds_elapsed ← getField m "seconds_elapsed" Json.asInt 0
    let seconds_remaining ← getField m "seconds_remaining" Json.asInt 0
    let repeat_mode ← getField m "repeat_mode" Json.asInt 0
    let advancedView ← getField m "advancedView"
      SystemStatusAdvanceView.from_json SystemStatusAdvanceView.default
    .ok { MQTT := mqtt, fppd, mode, mode_name, status_name, volume,
          current_sequence, current_song, current_playlist,
          seconds_played, seconds_elapsed, seconds_remaining,
          repeat_mode, advancedView }
  | _ => .error "SystemStatus.from_dict: argument is not a dict"

/-- `SystemStatus.to_dict` (`serialize_by_alias` is the identity for
these field names; `omit_none` has nothing to omit since no field of
the model is optional-typed). -/
def SystemStatus.to_json (s : SystemStatus) : Json :=
  .obj [("MQTT", s.MQTT.to_json), ("fppd", .str s.fppd),
        ("mode", .int s.mode), ("mode_name", .str s.mode_name),
        ("status_name", .str s.status_name), ("volume", .int s.volume),
        ("current_sequence", .str s.current_sequence),
        ("current_song", .str s.current_song),
        ("current_playlist", s.current_playlist.to_json),
        ("seconds_played", .int s.seconds_played),
        ("seconds_elapsed", .int s.seconds_elapsed),
        ("seconds_remaining", .int s.seconds_remaining),
        ("repeat_mode", .int s.repeat_mode),
        ("advancedView", s.advancedView.to_json)]

/-- `Sequence` record (models.py lines 141-145). -/
structure Sequence where
  name : String := ""
deriving DecidableEq

/-- `Sequence.from_dict`. -/
def Sequence.from_json : Json → Except String Sequence
  | .obj m => do
    let name ← getField m "name" Json.asStr ""
    .ok { name }
  | _ => .error "Sequence.from_dict: argument is not a dict"

/-- `PlaylistItem` record (models.py lines 148-159); note the `duration`
default is `220.025`, not zero. -/
structure PlaylistItem where
  type : String := ""
  enabled : Int := 0
  playOnce : Int := 0
  sequenceName : String := ""
  mediaName : String := ""
  videoOut : String := ""
  timecode : String := ""
  duration : ℚ := 220.025
deriving DecidableEq

/-- `PlaylistItem()` with every field defaulted. -/
def PlaylistItem.default : PlaylistItem := {}

/-- `PlaylistItem.from_dict`. -/
def PlaylistItem.from_json : Json → Except String PlaylistItem
  | .obj m => do
    let type ← getField m "type" Json.asStr ""
    let enabled ← getField m "enabled" Json.asInt 0
    let playOnce ← getField m "playOnce" Json.asInt 0
    let sequenceName ← getField m "sequenceName" Json.asStr ""
    let mediaName ← getField m "mediaName" Json.asStr ""
    let videoOut ← getField m "videoOut" Json.asStr ""
    let timecode ← getField m "timecode" Json.asStr ""
    let duration ← getField m "duration" Json.asFloat 220.025
    .ok { type, enabled, playOnce, sequenceName, mediaName, videoOut,
          timecode, duration }
  | _ => .error "PlaylistItem.from_dict: argument is not a dict"

/-- The mashumaro element-wise decode of a `list[PlaylistItem]` field
(`[PlaylistItem.from_dict(x) for x in value]`; a non-list value
raises). -/
def decodePlaylistItemList : Json → Except String (List PlaylistItem)
  | .arr xs => decodeEach PlaylistItem.from_json xs
  | _ => .error "invalid value for list field"

/-- `Playlist` record (models.py lines 162-174). -/
structure Playlist where
  name : String := ""
  version : Int := 0
  «repeat» : Int := 0
  loopCount : Int := 0
  empty : Bool := false
  desc : String := ""
  random : Int := 0
  leadIn : List PlaylistItem := []
  mainPlaylist : List PlaylistItem := []
deriving DecidableEq

/-- `Playlist()` with every field defaulted. -/
def Playlist.default : Playlist := {}

/-- `Playlist.from_dict`. -/
def Playlist.from_json : Json → Except String Playlist
  | .obj m => do
    let name ← getField m "name" Json.asStr ""
    let version ← getField m "version" Json.asInt 0
    let rpt ← getField m "repeat" Json.asInt 0
    let loopCount ← getField m "loopCount" Json.asInt 0
    let empty ← getField m "empty" Json.asBool false
    let desc ← getField m "desc" Json.asStr ""
    let random ← getField m "random" Json.asInt 0
    let leadIn ← getField m "leadIn" decodePlaylistItemList []
    let mainPlaylist ← getField m "mainPlaylist" decodePlaylistItemList []
    .ok { name, version, «repeat» := rpt, loopCount, empty, desc, random,
          leadIn, mainPlaylist }
  | _ => .error "Playlist.from_dict: argument is not a dict"

/-- `Device` record (models.py lines 177-192): all three fields are
required (no defaults). -/
structure Device where
  system_status : SystemStatus
  playlists : List Playlist
  sequences : List Sequence
deriving DecidableEq

/-- Python dict assignment `d[key] = v` on an association list with
unique keys: replaces in place, appends if absent. -/
def setKey : List (String × Json) → String → Json → List (String × Json)
  | [], k, v => [(k, v)]
  | (k', v') :: rest, k, v =>
    if k' == k then (k, v) :: rest else (k', v') :: setKey rest k v

/-- `Device.__pre_deserialize__` (models.py lines 185-192): when the
`playlists` / `sequences` entries are present and truthy, each element of
their iteration is wrapped into a one-key dict
`[("name", element)]`. -/
def Device.preDeserialize (d : List (String × Json)) :
    Except String (List (String × Json)) := do
  let d1 ← match d.lookup "playlists" with
    | some v =>
      if v.truthy then do
        let xs ← v.iterate
        .ok (setKey d "playlists" (.arr (xs.map fun x => .obj [("name", x)])))
      else .ok d
    | none => .ok d
  let d2 ← match d1.lookup "sequences" with
    | some v =>
      if v.truthy then do
        let xs ← v.iterate
        .ok (setKey d1 "sequences" (.arr (xs.map fun x => .obj [("name", x)])))
      else .ok d1
    | none => .ok d1
  .ok d2

/-- `Device.from_dict`: runs the `__pre_deserialize__` hook, then decodes
the three required fields; list fields iterate their value and decode
each element. -/
def Device.from_dict (d : List (String × Json)) : Except String Device := do
  let d' ← Device.preDeserialize d
  let ssJ ← getRequired d' "system_status"
  let system_status ← SystemStatus.from_json ssJ
  let plJ ← getRequired d' "playlists"
  let plElems ← plJ.iterate
  let playlists ← decodeEach Playlist.from_json plElems
  let sqJ ← getRequired d' "sequences"
  let sqElems ← sqJ.iterate
  let sequences ← decodeEach Sequence.from_json sqElems
  .ok { system_status, playlists, sequences }

/-- `Device.update_from_dict` (models.py lines 194-216): for each of the
three keys, when present and truthy the corresponding field is replaced
wholesale by re-decoding the raw payload — with NO `__pre_deserialize__`
normalization.  The second component is the state of the mutated `self`
when the call returns or raises: each assignment lands before the next
field is attempted, so a later decode failure leaves earlier assignments
in place. -/
def Device.update_from_dict (self : Device) (data : List (String × Json)) :
    Except String Device × Device :=
  let step1 : Except String Device × Device :=
    match data.lookup "system_status" with
    | some v =>
      if v.truthy then
        match SystemStatus.from_json v with
        | .ok ss => (.ok { self with system_status := ss },
                     { self with system_status := ss })
        | .error e => (.error e, self)
      else (.ok self, self)
    | none => (.ok self, self)
  match step1 with
  | (.error e, s) => (.error e, s)
  | (.ok _, s1) =>
    let step2 : Except String Device × Device :=
      match data.lookup "playlists" with
      | some v =>
        if v.truthy then
          match v.iterate with
          | .error e => (.error e, s1)
          | .ok xs =>
            match decodeEach Playlist.from_json xs with
            | .ok ps => (.ok { s1 with playlists := ps },
                         { s1 with playlists := ps })
            | .error e => (.error e, s1)
        else (.ok s1, s1)
      | none => (.ok s1, s1)
    match step2 with
    | (.error e, s) => (.error e, s)
    | (.ok _, s2) =>
      match data.lookup "sequences" with
      | some v =>
        if v.truthy then
          match v.iterate with
          | .error e => (.error e, s2)
          | .ok xs =>
            match decodeEach Sequence.from_json xs with
            | .ok qs => (.ok { s2 with sequences := qs },
                         { s2 with sequences := qs })
            | .error e => (.error e, s2)
        else (.ok s2, s2)
      | none => (.ok s2, s2)

/-! ### The exception taxonomy and the transport client (`fpp.py`) -/

/-- The exceptions observable from `FPP.request` / `FPP.update`,
together with the two decode-failure kinds that are outside the FPP
taxonomy (an `orjson.JSONDecodeError` escaping `request`, and a
mashumaro decode failure escaping `update`).  Per the repository's
`exceptions` module, `FPPConnectionTimeoutError` subclasses
`FPPConnectionError`, which subclasses `FPPError`. -/
inductive FPPException where
  | FPPError (status : Nat) (payload : Json)
  | FPPConnectionError (msg : String)
  | FPPConnectionTimeoutError (msg : String)
  | FPPEmptyResponseError (msg : String)
  | JSONDecodeError (raw : String)
  | MashumaroDecodeError (msg : String)

/-- `isinstance(e, FPPConnectionError)`: true for
`FPPConnectionError` itself and for its subclass
`FPPConnectionTimeoutError` (class hierarchy of the repository's
`exceptions` module).  This is the predicate `backoff.on_exception`
retries on. -/
def FPPException.isFPPConnectionError : FPPException → Bool
  | .FPPConnectionError _ => true
  | .FPPConnectionTimeoutError _ => true
  | _ => false

/-- Whether `pat` begins the character list `s`. -/
def listStartsWith : List Char → List Char → Bool
  | _, [] => true
  | [], _ :: _ => false
  | c :: cs, p :: ps => c == p && listStartsWith cs ps

/-- Whether `pat` occurs somewhere inside the character list. -/
def subOccurs (pat : List Char) : List Char → Bool
  | [] => pat.isEmpty
  | c :: cs => listStartsWith (c :: cs) pat || subOccurs pat cs

/-- Python `pat in s` substring test. -/
def strContains (s pat : String) : Bool := subOccurs pat.toList s.toList

/-- Skip JSON whitespace. -/
def skipWs : List Char → List Char
  | c :: cs =>
    if c = ' ' ∨ c = '\t' ∨ c = '\n' ∨ c = '\r' then skipWs cs else c :: cs
  | [] => []

/-- Parse the remainder of a JSON string literal after the opening
quote (escape handling restricted to the simple escapes; no `\u`). -/
def parseStrChars : List Char → Option (String × List Char)
  | [] => none
  | '"' :: rest => some ("", rest)
  | '\\' :: c :: rest => do
    let (s, r) ← parseStrChars rest
    let decoded := if c = 'n' then '\n' else if c = 't' then '\t' else c
    some (String.singleton decoded ++ s, r)
  | c :: rest => do
    let (s, r) ← parseStrChars rest
    some (String.singleton c ++ s, r)

/-- Digits to a natural number. -/
def digitsToNat (ds : List Char) : Nat :=
  ds.foldl (fun a c => a * 10 + (c.toNat - '0'.toNat)) 0

/-- Parse a JSON number (optionally signed, optional fraction; integer
tokens decode to Python `int`, fraction tokens to Python `float`,
matching `orjson`; exponents are outside the modelled subset). -/
def parseNumber (cs : List Char) : Option (Json × List Char) :=
  let (neg, cs1) := match cs with
    | '-' :: r => (true, r)
    | _ => (false, cs)
  let (ds, cs2) := cs1.span Char.isDigit
  if ds.isEmpty then none
  else
    match cs2 with
    | '.' :: cs3 =>
      let (fs, cs4) := cs3.span Char.isDigit
      if fs.isEmpty then none
      else
        let q : ℚ := (digitsToNat ds : ℚ) + (digitsToNat fs : ℚ) / ((10 : ℚ) ^ fs.length)
        some (.float (if neg then -q else q), cs4)
    | _ =>
      let n : Int := Int.ofNat (digitsToNat ds)
      some (.int (if neg then -n else n), cs2)

mutual

/-- Parse one JSON value (fuel-based recursion; the fuel bounds nesting
depth and is always ample when seeded with the input length). -/
def parseVal : Nat → List Char → Option (Json × List Char)
  | 0, _ => none
  | fuel + 1, cs =>
    match skipWs cs with
    | [] => none
    | '"' :: rest => (parseStrChars rest).map fun p => (.str p.1, p.2)
    | '\x7b' :: rest =>
      (match skipWs rest with
       | '\x7d' :: r => some (.obj [], r)
       | _ => (parseObjMembers fuel rest).map fun p => (.obj p.1, p.2))
    | '[' :: rest =>
      (match skipWs rest with
       | ']' :: r => some (.arr [], r)
       | _ => (parseArrElems fuel rest).map fun p => (.arr p.1, p.2))
    | 't' :: 'r' :: 'u' :: 'e' :: rest => some (.bool true, rest)
    | 'f' :: 'a' :: 'l' :: 's' :: 'e' :: rest => some (.bool false, rest)
    | 'n' :: 'u' :: 'l' :: 'l' :: rest => some (.null, rest)
    | other => parseNumber other

/-- Parse one-or-more `"key": value` members followed by `\x7d`. -/
def parseObjMembers : Nat → List Char → Option (List (String × Json) × List Char)
  | 0, _ => none
  | fuel + 1, cs =>
    match skipWs cs with
    | '"' :: rest => do
      let (k, r1) ← parseStrChars rest
      match skipWs r1 with
      | ':' :: r2 => do
        let (v, r3) ← parseVal fuel r2
        match skipWs r3 with
        | ',' :: r4 => do
          let (more, r5) ← parseObjMembers fuel r4
          some ((k, v) :: more, r5)
        | '\x7d' :: r4 => some ([(k, v)], r4)
        | _ => none
      | _ => none
    | _ => none

/-- Parse one-or-more array elements followed by `]`. -/
def parseArrElems : Nat → List Char → Option (List Json × List Char)
  | 0, _ => none
  | fuel + 1, cs => do
    let (v, r1) ← parseVal fuel cs
    match skipWs r1 with
    | ',' :: r2 => do
      let (more, r3) ← parseArrElems fuel r2
      some (v :: more, r3)
    | ']' :: r2 => some ([v], r2)
    | _ => none

end

/-- `orjson.loads` on a document string: parse one value and require
only whitespace to remain. -/
def Json.parse (s : String) : Option Json :=
  match parseVal (s.length + 1) s.toList with
  | some (j, rest) => if (skipWs rest).isEmpty then some j else none
  | none => none

/-- One network attempt's observable outcome, as seen inside
`FPP.request`'s `try` block: the `asyncio.timeout` deadline fired, a
transport error (`aiohttp.ClientError` / `socket.gaierror`) occurred, or
an HTTP response arrived with a status, a `Content-Type` header value
(`""` when absent) and a body text. -/
inductive HttpOutcome where
  | timeout
  | netError
  | response (status : Nat) (contentType : String) (body : String)

/-- The timeout message of fpp.py line 107. -/
def timeoutMessage (host : String) : String :=
  "Timeout occurred while connecting to FPP device at " ++ host

/-- The transport-error message of fpp.py line 110. -/
def connectionMessage (host : String) : String :=
  "Error occurred while communicating with FPP device at " ++ host

/-- One un-retried pass of `FPP.request` (fpp.py lines 78-113): maps a
network outcome to the returned decoded value or the raised exception.
On 4xx/5xx (`status // 100 in [4, 5]`), the body is JSON-decoded only
when the Content-Type equals `"application/json"` exactly, otherwise it
is wrapped as a one-key `message` dict; on success, the body is
JSON-decoded whenever the Content-Type merely contains
`"application/json"`, otherwise the text is returned as-is. -/
def requestOnce (host : String) (o : HttpOutcome) : Except FPPException Json :=
  match o with
  | .timeout => .error (.FPPConnectionTimeoutError (timeoutMessage host))
  | .netError => .error (.FPPConnectionError (connectionMessage host))
  | .response status contentType body =>
    if status / 100 == 4 || status / 100 == 5 then
      if contentType == "application/json" then
        match Json.parse body with
        | some j => .error (.FPPError status j)
        | none => .error (.JSONDecodeError body)
      else
        .error (.FPPError status (.obj [("message", .str body)]))
    else
      if strContains contentType "application/json" then
        match Json.parse body with
        | some j => .ok j
        | none => .error (.JSONDecodeError body)
      else .ok (.str body)

/-- `backoff.on_exception(backoff.expo, FPPConnectionError, max_tries=3)`
around one `request` call: attempt `i` observes `outcomes i`; an
exception that is an `FPPConnectionError` instance is retried while
tries remain, any other exception (and any success) ends the call.
Returns the final result and the number of attempts made. -/
def requestWithBackoff (host : String) (outcomes : Nat → HttpOutcome) :
    Nat → Nat → Except FPPException Json × Nat
  | _, 0 => (.error (.FPPConnectionError (connectionMessage host)), 0)
  | i, tries + 1 =>
    match requestOnce host (outcomes i) with
    | .ok v => (.ok v, 1)
    | .error e =>
      if e.isFPPConnectionError && tries != 0 then
        match requestWithBackoff host outcomes (i + 1) tries with
        | (r, n) => (r, n + 1)
      else (.error e, 1)

/-- `FPP.request` (fpp.py line 36): the backoff-wrapped request with
`max_tries=3`. -/
def FPP.request (host : String) (outcomes : Nat → HttpOutcome) :
    Except FPPException Json × Nat :=
  requestWithBackoff host outcomes 0 3

/-- The empty-response message for the system-status step (fpp.py
lines 132-135; the source wraps it in a 1-tuple, modelled by its string
content). -/
def emptyMessageSystemStatus (host : String) : String :=
  "FPP device at " ++ host ++ " returned an empty API response on system_status update"

/-- The empty-response message for the playlists step (fpp.py
lines 140-143). -/
def emptyMessagePlaylists (host : String) : String :=
  "FPP device at " ++ host ++ " returned an empty API response on playlist update"

/-- The empty-response message for the sequences step (fpp.py
lines 148-151). -/
def emptyMessageSequences (host : String) : String :=
  "FPP device at " ++ host ++ " returned an empty API response on sequences update"

/-- The observable outcome of one `FPP.update` call: the returned value
or raised exception, the `_device` slot after the call (a `Device` value
tagged with an allocation identity, so that reference identity across
calls is expressible), and the list of request URIs actually issued, in
order. -/
structure UpdateOutcome where
  result : Except FPPException (Nat × Device)
  device : Option (Nat × Device)
  requested : List String

/-- `FPP.update` (fpp.py lines 115-160): three sequential requests in
fixed order, each checked for truthiness before the next is issued; on
first success constructs the `Device` via `Device.from_dict` (a fresh
identity), afterwards mutates the existing `Device` in place via
`update_from_dict` (same identity).  `resp` gives the result of
`self.request(uri)` for each URI. -/
def FPP.update (host : String) (dev0 : Option (Nat × Device)) (freshId : Nat)
    (resp : String → Except FPPException Json) : UpdateOutcome :=
  match resp "/api/system/status" with
  | .error e => ⟨.error e, dev0, ["/api/system/status"]⟩
  | .ok system_status =>
    if !system_status.truthy then
      ⟨.error (.FPPEmptyResponseError (emptyMessageSystemStatus host)), dev0,
        ["/api/system/status"]⟩
    else
      match resp "/api/playlists" with
      | .error e => ⟨.error e, dev0, ["/api/system/status", "/api/playlists"]⟩
      | .ok playlists =>
        if !playlists.truthy then
          ⟨.error (.FPPEmptyResponseError (emptyMessagePlaylists host)), dev0,
            ["/api/system/status", "/api/playlists"]⟩
        else
          match resp "/api/sequence" with
          | .error e =>
            ⟨.error e, dev0,
              ["/api/system/status", "/api/playlists", "/api/sequence"]⟩
          | .ok sequences =>
            if !sequences.truthy then
              ⟨.error (.FPPEmptyResponseError (emptyMessageSequences host)), dev0,
                ["/api/system/status", "/api/playlists", "/api/sequence"]⟩
            else
              let data := [("system_status", system_status),
                           ("playlists", playlists),
                           ("sequences", sequences)]
              match dev0 with
              | none =>
                match Device.from_dict data with
                | .ok d =>
                  ⟨.ok (freshId, d), some (freshId, d),
                    ["/api/system/status", "/api/playlists", "/api/sequence"]⟩
                | .error m =>
                  ⟨.error (.MashumaroDecodeError m), dev0,
                    ["/api/system/status", "/api/playlists", "/api/sequence"]⟩
              | some (devId, d) =>
                match d.update_from_dict data with
                | (.ok d', _) =>
                  ⟨.ok (devId, d'), some (devId, d'),
                    ["/api/system/status", "/api/playlists", "/api/sequence"]⟩
                | (.error m, dPartial) =>
                  ⟨.error (.MashumaroDecodeError m), some (devId, dPartial),
                    ["/api/system/status", "/api/playlists", "/api/sequence"]⟩

/-! ### Session ownership (`FPP.close`, `__aexit__`) -/

/-- The session-relevant state of an `FPP` dataclass instance: the
`session` field (an `aiohttp.ClientSession` modelled by its identity) and
the private `_close_session` flag.  The dataclass defaults are
`session=None`, `_close_session=False`. -/
structure FPP where
  host : String
  request_timeout : ℚ := 8
  session : Option Nat := none
  close_session : Bool := false
deriving DecidableEq

/-- Constructing `FPP(host, session=...)`. -/
def FPP.make (host : String) (session : Option Nat) : FPP :=
  { host, session }

/-- The lazy session creation at the top of `request()` (fpp.py
lines 74-76): if `self.session is None`, create one (identity `fresh`)
and set `_close_session = True`; otherwise leave the state untouched. -/
def ensureSession (st : FPP) (fresh : Nat) : FPP :=
  match st.session with
  | some _ => st
  | none => { st with session := some fresh, close_session := true }

/-- Apply the lazy-creation step once per `request()` call in a
session's lifetime. -/
def applyEnsures (st : FPP) (l : List Nat) : FPP :=
  l.foldl ensureSession st

/-- `FPP.close` (fpp.py lines 162-165): awaits `session.close()` only
when a session exists and `_close_session` is set.  Returns the (always
unchanged) state and whether `session.close()` was awaited. -/
def FPP.close (st : FPP) : FPP × Bool :=
  if st.session.isSome && st.close_session then (st, true) else (st, false)

/-- `FPP.__aexit__` (fpp.py lines 177-185): ignores the exception info
entirely and delegates to `close()` — the same release happens whether
the `async with` body completed normally (`exc = none`) or raised
(`exc = some _`). -/
def FPP.aexit (st : FPP) (_exc : Option String) : FPP × Bool :=
  FPP.close st

/-! ### Helper lemmas -/

/-- Bind on `Except` reduces on `ok`. -/
theorem exceptBind_ok (a : α) (f : α → Except ε β) :
    (Except.ok a : Except ε α) >>= f = f a := rfl

/-- Bind on `Except` reduces on `error`. -/
theorem exceptBind_error (e : ε) (f : α → Except ε β) :
    (Except.error e : Except ε α) >>= f = .error e := rfl

/-- Inversion for a successful `Except` bind. -/
theorem exceptBind_ok_inv {x : Except ε α} {f : α → Except ε β} {r : β}
    (h : x >>= f = .ok r) : ∃ a, x = .ok a ∧ f a = .ok r := by
  cases x with
  | ok a => exact ⟨a, rfl, h⟩
  | error e => exact absurd h (by simp [exceptBind_error])

/-- The key `key`, when present in the payload, holds a value its field
decoder accepts.  A key this holds of never causes a decode failure —
in particular a missing key never does. -/
def FieldOk (m : List (String × Json)) (key : String)
    (dec : Json → Except String α) : Prop :=
  ∀ v, m.lookup key = some v → ∃ x, dec v = .ok x

/-- A defaulted field whose key is either missing or well-valued always
extracts successfully, and extracts the default exactly when the key is
missing. -/
theorem getField_total (d : α) {m : List (String × Json)} {k : String}
    {dec : Json → Except String α} (h : FieldOk m k dec) :
    ∃ x, getField m k dec d = .ok x ∧ (m.lookup k = none → x = d) := by
  cases hl : m.lookup k with
  | none => exact ⟨d, by simp only [getField, hl], fun _ => rfl⟩
  | some v =>
    obtain ⟨x, hx⟩ := h v hl
    refine ⟨x, ?_, ?_⟩
    · simp only [getField, hl]
      exact hx
    · intro hn
      cases hn

/-- Decoding a list of wrapped strings recovers the strings. -/
theorem decodeEach_asStr_map (xs : List String) :
    decodeEach Json.asStr (xs.map Json.str) = .ok xs := by
  induction xs with
  | nil => rfl
  | cons x xs ih =>
    simp only [List.map_cons, decodeEach, Json.asStr, exceptBind_ok, ih]

/-- `MQTTStatus` decode–encode round trip. -/
theorem mqttStatus_roundtrip (m : MQTTStatus) :
    MQTTStatus.from_json m.to_json = .ok m := rfl

/-- `CurrentPlaylist` decode–encode round trip. -/
theorem currentPlaylist_roundtrip (c : CurrentPlaylist) :
    CurrentPlaylist.from_json c.to_json = .ok c := rfl

/-- `SystemStatusAdvanceViewUtilization` decode–encode round trip. -/
theorem utilization_roundtrip
    (u : SystemStatusAdvanceViewUtilization) :
    SystemStatusAdvanceViewUtilization.from_json u.to_json = .ok u := rfl

/-- `SystemStatusAdvanceView` decode–encode round trip. -/
theorem advanceView_roundtrip (a : SystemStatusAdvanceView) :
    SystemStatusAdvanceView.from_json a.to_json = .ok a := by
  show (decodeEach Json.asStr (a.IPs.map Json.str)) >>=
      (fun ips => Except.ok
        { HostName := a.HostName, HostDescription := a.HostDescription,
          Platform := a.Platform, Variant := a.Variant, Mode := a.Mode,
          Version := a.Version, Branch := a.Branch,
          OSVersion := a.OSVersion, OSRelease := a.OSRelease,
          channelRanges := a.channelRanges, majorVersion := a.majorVersion,
          minorVersion := a.minorVersion, typeId := a.typeId,
          Utilization := a.Utilization, Kernel := a.Kernel,
          LocalGitVersion := a.LocalGitVersion,
          RemoteGitVersion := a.RemoteGitVersion,
          UpgradeSource := a.UpgradeSource, IPs := ips }) = Except.ok a
  rw [decodeEach_asStr_map, exceptBind_ok]

/-- `SystemStatus` decode–encode round trip. -/
theorem systemStatus_roundtrip (s : SystemStatus) :
    SystemStatus.from_json s.to_json = .ok s := by
  show (SystemStatusAdvanceView.from_json s.advancedView.to_json) >>=
      (fun advancedView => Except.ok
        { MQTT := s.MQTT, fppd := s.fppd, mode := s.mode,
          mode_name := s.mode_name, status_name := s.status_name,
          volume := s.volume, current_sequence := s.current_sequence,
          current_song := s.current_song,
          current_playlist := s.current_playlist,
          seconds_played := s.seconds_played,
          seconds_elapsed := s.seconds_elapsed,
          seconds_remaining := s.seconds_remaining,
          repeat_mode := s.repeat_mode, advancedView }) = Except.ok s
  rw [advanceView_roundtrip, exceptBind_ok]

/-- An attempt that got an HTTP response never raises a connection-class
exception: its failures are `FPPError` (4xx/5xx) or `JSONDecodeError`,
neither an `FPPConnectionError` instance, so `backoff` never retries
them. -/
theorem requestOnce_response_not_connection {host : String} {s : Nat}
    {c b : String} {e : FPPException}
    (h : requestOnce host (.response s c b) = .error e) :
    e.isFPPConnectionError = false := by
  simp only [requestOnce] at h
  split_ifs at h
  · cases hp : Json.parse b <;> rw [hp] at h <;>
      injection h with h <;> subst h <;> rfl
  · injection h with h; subst h; rfl
  · cases hp : Json.parse b <;> rw [hp] at h
    · injection h with h; subst h; rfl
    · cases h

/-! ### C1 -/

/-- C1, counterexample: the claim says a timed-out `request()` "is not
retried", but `backoff.on_exception` retries every `FPPConnectionError`
instance and `FPPConnectionTimeoutError` is a subclass of
`FPPConnectionError`, so a call whose every attempt times out makes all
3 attempts (not 1) before failing with the timeout variant. -/
theorem c1_timeout_retried_counterexample :
    FPP.request "example.com" (fun _ => .timeout) =
      (.error (.FPPConnectionTimeoutError
        "Timeout occurred while connecting to FPP device at example.com"), 3) ∧
    (3 : Nat) ≠ 1 :=
  ⟨rfl, by decide⟩

/-- C1 (amended): a timed-out `request()` fails with the
timeout-specific `FPPConnectionTimeoutError`; because that class refines
`FPPConnectionError`, the exponential-backoff retry (3 attempts total)
applies to timeouts exactly as to other connection errors, while an
attempt that received an HTTP response — in particular a 4xx/5xx
`FPPError` — is never retried (the call ends after 1 attempt). -/
theorem c1_retry_policy (host : String) (outcomes : Nat → HttpOutcome) :
    ((∀ i, outcomes i = .timeout) →
      FPP.request host outcomes =
        (.error (.FPPConnectionTimeoutError (timeoutMessage host)), 3))
  ∧ ((∀ i, outcomes i = .netError) →
      FPP.request host outcomes =
        (.error (.FPPConnectionError (connectionMessage host)), 3))
  ∧ (∀ e, requestOnce host (outcomes 0) = .error e →
      e.isFPPConnectionError = false →
      FPP.request host outcomes = (.error e, 1))
  ∧ (∀ status ct body, outcomes 0 = .response status ct body →
      (FPP.request host outcomes).2 = 1) := by
  refine ⟨?_, ?_, ?_, ?_⟩
  · intro h
    simp [FPP.request, requestWithBackoff, h 0, h 1, h 2, requestOnce,
      FPPException.isFPPConnectionError]
  · intro h
    simp [FPP.request, requestWithBackoff, h 0, h 1, h 2, requestOnce,
      FPPException.isFPPConnectionError]
  · intro e he hne
    simp [FPP.request, requestWithBackoff, he, hne]
  · intro status ct body h
    cases hr : requestOnce host (outcomes 0) with
    | ok v => simp [FPP.request, requestWithBackoff, hr]
    | error e =>
      have hne := requestOnce_response_not_connection (h ▸ hr)
      simp [FPP.request, requestWithBackoff, hr, hne]

/-- C1 witness: a request whose attempts all time out ends with the
timeout error after 3 attempts. -/
theorem c1_retry_policy_witness :
    FPP.request "example.com" (fun _ => .timeout) =
      (.error (.FPPConnectionTimeoutError (timeoutMessage "example.com")), 3) :=
  (c1_retry_policy "example.com" (fun _ => .timeout)).1 (fun _ => rfl)

/-! ### C2 -/

/-- C2: evaluating the code at the failing input.  After a `Device`
exists, an `update()` whose `playlists` / `sequences` payloads are the
bare name-string lists the list endpoints return goes through
`Device.update_from_dict`, which re-decodes the raw payload WITHOUT the
`__pre_deserialize__` wrapping — `Playlist.from_dict("pl1")` is called on
a bare string and raises, so the update fails instead of succeeding with
the fetched names (first conjunct).  The same payload through the
first-construction path `Device.from_dict` (which does run the hook)
succeeds and wraps every bare string into a `name` record (second
conjunct), showing the wrapping is the intended pre-processing the
update path skips. -/
theorem c2_update_skips_normalization :
    (FPP.update "example.com"
        (some (0, ⟨SystemStatus.default, [], []⟩)) 1
        (fun uri =>
          if uri = "/api/system/status" then .ok (.obj [("volume", .int 42)])
          else if uri = "/api/playlists" then .ok (.arr [.str "pl1"])
          else .ok (.arr [.str "introA"]))).result =
      .error (.MashumaroDecodeError "Playlist.from_dict: argument is not a dict")
  ∧ (Device.from_dict
        [("system_status", .obj [("volume", .int 42)]),
         ("playlists", .arr [.str "pl1"]),
         ("sequences", .arr [.str "introA"])]).map
      (fun d => (d.playlists, d.sequences)) =
      .ok ([{ name := "pl1" }], [{ name := "introA" }]) :=
  ⟨rfl, rfl⟩

/-! ### C3 -/

/-- C3, counterexample: the claim says a missing numeric key defaults to
zero, but `PlaylistItem.duration` defaults to `220.025`: decoding a
`PlaylistItem` payload with no `duration` key succeeds with
`duration = 220.025 ≠ 0`. -/
theorem c3_duration_default_counterexample :
    PlaylistItem.from_json (.obj []) = .ok PlaylistItem.default ∧
    PlaylistItem.default.duration = 220.025 ∧ (220.025 : ℚ) ≠ 0 :=
  ⟨rfl, rfl, by norm_num⟩

/-- C3 (amended): for every domain record type with defaulted fields
and every payload from which any optional keys are missing — the keys
that ARE present carrying values their field decoders accept — decoding
succeeds (a missing key never causes a decode failure), and every
missing key takes the dataclass default: zero for numeric fields, empty
string for string fields, empty list for list fields, `false` for
boolean fields — EXCEPT `PlaylistItem.duration`, whose default is
`220.025`.  One conjunct per record type, quantified over all payloads,
with one missing-key implication per field. -/
theorem c3_missing_key_defaults :
    (∀ m : List (String × Json),
      FieldOk m "count" Json.asInt → FieldOk m "description" Json.asStr →
      FieldOk m "index" Json.asInt → FieldOk m "playlist" Json.asStr →
      FieldOk m "type" Json.asStr →
      ∃ r, CurrentPlaylist.from_json (.obj m) = .ok r
        ∧ (m.lookup "count" = none → r.count = 0)
        ∧ (m.lookup "description" = none → r.description = "")
        ∧ (m.lookup "index" = none → r.index = 0)
        ∧ (m.lookup "playlist" = none → r.playlist = "")
        ∧ (m.lookup "type" = none → r.type = ""))
  ∧ (∀ m : List (String × Json),
      FieldOk m "configured" Json.asBool → FieldOk m "connected" Json.asBool →
      ∃ r, MQTTStatus.from_json (.obj m) = .ok r
        ∧ (m.lookup "configured" = none → r.configured = false)
        ∧ (m.lookup "connected" = none → r.connected = false))
  ∧ (∀ m : List (String × Json),
      FieldOk m "CPU" Json.asFloat → FieldOk m "Memory" Json.asFloat →
      FieldOk m "Uptime" Json.asStr →
      ∃ r, SystemStatusAdvanceViewUtilization.from_json (.obj m) = .ok r
        ∧ (m.lookup "CPU" = none → r.CPU = 0)
        ∧ (m.lookup "Memory" = none → r.Memory = 0)
        ∧ (m.lookup "Uptime" = none → r.Uptime = ""))
  ∧ (∀ m : List (String × Json),
      FieldOk m "HostName" Json.asStr → FieldOk m "HostDescription" Json.asStr →
      FieldOk m "Platform" Json.asStr → FieldOk m "Variant" Json.asStr →
      FieldOk m "Mode" Json.asStr → FieldOk m "Version" Json.asStr →
      FieldOk m "Branch" Json.asStr → FieldOk m "OSVersion" Json.asStr →
      FieldOk m "OSRelease" Json.asStr → FieldOk m "channelRanges" Json.asStr →
      FieldOk m "majorVersion" Json.asInt → FieldOk m "minorVersion" Json.asInt →
      FieldOk m "typeId" Json.asInt →
      FieldOk m "Utilization" SystemStatusAdvanceViewUtilization.from_json →
      FieldOk m "Kernel" Json.asStr → FieldOk m "LocalGitVersion" Json.asStr →
      FieldOk m "RemoteGitVersion" Json.asStr →
      FieldOk m "UpgradeSource" Json.asStr → FieldOk m "IPs" decodeStrList →
      ∃ r, SystemStatusAdvanceView.from_json (.obj m) = .ok r
        ∧ (m.lookup "HostName" = none → r.HostName = "")
        ∧ (m.lookup "HostDescription" = none → r.HostDescription = "")
        ∧ (m.lookup "Platform" = none → r.Platform = "")
        ∧ (m.lookup "Variant" = none → r.Variant = "")
        ∧ (m.lookup "Mode" = none → r.Mode = "")
        ∧ (m.lookup "Version" = none → r.Version = "")
        ∧ (m.lookup "Branch" = none → r.Branch = "")
        ∧ (m.lookup "OSVersion" = none → r.OSVersion = "")
        ∧ (m.lookup "OSRelease" = none → r.OSRelease = "")
        ∧ (m.lookup "channelRanges" = none → r.channelRanges = "")
        ∧ (m.lookup "majorVersion" = none → r.majorVersion = 0)
        ∧ (m.lookup "minorVersion" = none → r.minorVersion = 0)
        ∧ (m.lookup "typeId" = none → r.typeId = 0)
        ∧ (m.lookup "Utilization" = none →
            r.Utilization = SystemStatusAdvanceViewUtilization.default)
        ∧ (m.lookup "Kernel" = none → r.Kernel = "")
        ∧ (m.lookup "LocalGitVersion" = none → r.LocalGitVersion = "")
        ∧ (m.lookup "RemoteGitVersion" = none → r.RemoteGitVersion = "")
        ∧ (m.lookup "UpgradeSource" = none → r.UpgradeSource = "")
        ∧ (m.lookup "IPs" = none → r.IPs = []))
  ∧ (∀ m : List (String × Json),
      FieldOk m "MQTT" MQTTStatus.from_json → FieldOk m "fppd" Json.asStr →
      FieldOk m "mode" Json.asInt → FieldOk m "mode_name" Json.asStr →
      FieldOk m "status_name" Json.asStr → FieldOk m "volume" Json.asInt →
      FieldOk m "current_sequence" Json.asStr →
      FieldOk m "current_song" Json.asStr →
      FieldOk m "current_playlist" CurrentPlaylist.from_json →
      FieldOk m "seconds_played" Json.asInt →
      FieldOk m "seconds_elapsed" Json.asInt →
      FieldOk m "seconds_remaining" Json.asInt →
      FieldOk m "repeat_mode" Json.asInt →
      FieldOk m "advancedView" SystemStatusAdvanceView.from_json →
      ∃ r, SystemStatus.from_json (.obj m) = .ok r
        ∧ (m.lookup "MQTT" = none → r.MQTT = MQTTStatus.default)
        ∧ (m.lookup "fppd" = none → r.fppd = "")
        ∧ (m.lookup "mode" = none → r.mode = 0)
        ∧ (m.lookup "mode_name" = none → r.mode_name = "")
        ∧ (m.lookup "status_name" = none → r.status_name = "")
        ∧ (m.lookup "volume" = none → r.volume = 0)
        ∧ (m.lookup "current_sequence" = none → r.current_sequence = "")
        ∧ (m.lookup "current_song" = none → r.current_song = "")
        ∧ (m.lookup "current_playlist" = none →
            r.current_playlist = CurrentPlaylist.default)
        ∧ (m.lookup "seconds_played" = none → r.seconds_played = 0)
        ∧ (m.lookup "seconds_elapsed" = none → r.seconds_elapsed = 0)
        ∧ (m.lookup "seconds_remaining" = none → r.seconds_remaining = 0)
        ∧ (m.lookup "repeat_mode" = none → r.repeat_mode = 0)
        ∧ (m.lookup "advancedView" = none →
            r.advancedView = SystemStatusAdvanceView.default))
  ∧ (∀ m : List (String × Json),
      FieldOk m "name" Json.asStr →
      ∃ r, Sequence.from_json (.obj m) = .ok r
        ∧ (m.lookup "name" = none → r.name = ""))
  ∧ (∀ m : List (String × Json),
      FieldOk m "type" Json.asStr → FieldOk m "enabled" Json.asInt →
      FieldOk m "playOnce" Json.asInt → FieldOk m "sequenceName" Json.asStr →
      FieldOk m "mediaName" Json.asStr → FieldOk m "videoOut" Json.asStr →
      FieldOk m "timecode" Json.asStr → FieldOk m "duration" Json.asFloat →
      ∃ r, PlaylistItem.from_json (.obj m) = .ok r
        ∧ (m.lookup "type" = none → r.type = "")
        ∧ (m.lookup "enabled" = none → r.enabled = 0)
        ∧ (m.lookup "playOnce" = none → r.playOnce = 0)
        ∧ (m.lookup "sequenceName" = none → r.sequenceName = "")
        ∧ (m.lookup "mediaName" = none → r.mediaName = "")
        ∧ (m.lookup "videoOut" = none → r.videoOut = "")
        ∧ (m.lookup "timecode" = none → r.timecode = "")
        ∧ (m.lookup "duration" = none → r.duration = 220.025))
  ∧ (∀ m : List (String × Json),
      FieldOk m "name" Json.asStr → FieldOk m "version" Json.asInt →
      FieldOk m "repeat" Json.asInt → FieldOk m "loopCount" Json.asInt →
      FieldOk m "empty" Json.asBool → FieldOk m "desc" Json.asStr →
      FieldOk m "random" Json.asInt →
      FieldOk m "leadIn" decodePlaylistItemList →
      FieldOk m "mainPlaylist" decodePlaylistItemList →
      ∃ r, Playlist.from_json (.obj m) = .ok r
        ∧ (m.lookup "name" = none → r.name = "")
        ∧ (m.lookup "version" = none → r.version = 0)
        ∧ (m.lookup "repeat" = none → r.«repeat» = 0)
        ∧ (m.lookup "loopCount" = none → r.loopCount = 0)
        ∧ (m.lookup "empty" = none → r.empty = false)
        ∧ (m.lookup "desc" = none → r.desc = "")
        ∧ (m.lookup "random" = none → r.random = 0)
        ∧ (m.lookup "leadIn" = none → r.leadIn = [])
        ∧ (m.lookup "mainPlaylist" = none → r.mainPlaylist = [])) := by
  refine ⟨?_, ?_, ?_, ?_, ?_, ?_, ?_, ?_⟩
  · intro m h1 h2 h3 h4 h5
    obtain ⟨x1, e1, d1⟩ := getField_total 0 h1
    obtain ⟨x2, e2, d2⟩ := getField_total "" h2
    obtain ⟨x3, e3, d3⟩ := getField_total 0 h3
    obtain ⟨x4, e4, d4⟩ := getField_total "" h4
    obtain ⟨x5, e5, d5⟩ := getField_total "" h5
    refine ⟨⟨x1, x2, x3, x4, x5⟩, ?_, d1, d2, d3, d4, d5⟩
    simp only [CurrentPlaylist.from_json, e1, e2, e3, e4, e5, exceptBind_ok]
  · intro m h1 h2
    obtain ⟨x1, e1, d1⟩ := getField_total false h1
    obtain ⟨x2, e2, d2⟩ := getField_total false h2
    refine ⟨⟨x1, x2⟩, ?_, d1, d2⟩
    simp only [MQTTStatus.from_json, e1, e2, exceptBind_ok]
  · intro m h1 h2 h3
    obtain ⟨x1, e1, d1⟩ := getField_total 0 h1
    obtain ⟨x2, e2, d2⟩ := getField_total 0 h2
    obtain ⟨x3, e3, d3⟩ := getField_total "" h3
    refine ⟨⟨x1, x2, x3⟩, ?_, d1, d2, d3⟩
    simp only [SystemStatusAdvanceViewUtilization.from_json, e1, e2, e3,
      exceptBind_ok]
  · intro m h1 h2 h3 h4 h5 h6 h7 h8 h9 h10 h11 h12 h13 h14 h15 h16 h17 h18 h19
    obtain ⟨x1, e1, d1⟩ := getField_total "" h1
    obtain ⟨x2, e2, d2⟩ := getField_total "" h2
    obtain ⟨x3, e3, d3⟩ := getField_total "" h3
    obtain ⟨x4, e4, d4⟩ := getField_total "" h4
    obtain ⟨x5, e5, d5⟩ := getField_total "" h5
    obtain ⟨x6, e6, d6⟩ := getField_total "" h6
    obtain ⟨x7, e7, d7⟩ := getField_total "" h7
    obtain ⟨x8, e8, d8⟩ := getField_total "" h8
    obtain ⟨x9, e9, d9⟩ := getField_total "" h9
    obtain ⟨x10, e10, d10⟩ := getField_total "" h10
    obtain ⟨x11, e11, d11⟩ := getField_total 0 h11
    obtain ⟨x12, e12, d12⟩ := getField_total 0 h12
    obtain ⟨x13, e13, d13⟩ := getField_total 0 h13
    obtain ⟨x14, e14, d14⟩ :=
      getField_total SystemStatusAdvanceViewUtilization.default h14
    obtain ⟨x15, e15, d15⟩ := getField_total "" h15
    obtain ⟨x16, e16, d16⟩ := getField_total "" h16
    obtain ⟨x17, e17, d17⟩ := getField_total "" h17
    obtain ⟨x18, e18, d18⟩ := getField_total "" h18
    obtain ⟨x19, e19, d19⟩ := getField_total [] h19
    refine ⟨⟨x1, x2, x3, x4, x5, x6, x7, x8, x9, x10, x11, x12, x13, x14,
      x15, x16, x17, x18, x19⟩, ?_,
      d1, d2, d3, d4, d5, d6, d7, d8, d9, d10, d11, d12, d13, d14, d15,
      d16, d17, d18, d19⟩
    simp only [SystemStatusAdvanceView.from_json, e1, e2, e3, e4, e5, e6,
      e7, e8, e9, e10, e11, e12, e13, e14, e15, e16, e17, e18, e19,
      exceptBind_ok]
  · intro m h1 h2 h3 h4 h5 h6 h7 h8 h9 h10 h11 h12 h13 h14
    obtain ⟨x1, e1, d1⟩ := getField_total MQTTStatus.default h1
    obtain ⟨x2, e2, d2⟩ := getField_total "" h2
    obtain ⟨x3, e3, d3⟩ := getField_total 0 h3
    obtain ⟨x4, e4, d4⟩ := getField_total "" h4
    obtain ⟨x5, e5, d5⟩ := getField_total "" h5
    obtain ⟨x6, e6, d6⟩ := getField_total 0 h6
    obtain ⟨x7, e7, d7⟩ := getField_total "" h7
    obtain ⟨x8, e8, d8⟩ := getField_total "" h8
    obtain ⟨x9, e9, d9⟩ := getField_total CurrentPlaylist.default h9
    obtain ⟨x10, e10, d10⟩ := getField_total 0 h10
    obtain ⟨x11, e11, d11⟩ := getField_total 0 h11
    obtain ⟨x12, e12, d12⟩ := getField_total 0 h12
    obtain ⟨x13, e13, d13⟩ := getField_total 0 h13
    obtain ⟨x14, e14, d14⟩ :=
      getField_total SystemStatusAdvanceView.default h14
    refine ⟨⟨x1, x2, x3, x4, x5, x6, x7, x8, x9, x10, x11, x12, x13, x14⟩,
      ?_, d1, d2, d3, d4, d5, d6, d7, d8, d9, d10, d11, d12, d13, d14⟩
    simp only [SystemStatus.from_json, e1, e2, e3, e4, e5, e6, e7, e8, e9,
      e10, e11, e12, e13, e14, exceptBind_ok]
  · intro m h1
    obtain ⟨x1, e1, d1⟩ := getField_total "" h1
    refine ⟨⟨x1⟩, ?_, d1⟩
    simp only [Sequence.from_json, e1, exceptBind_ok]
  · intro m h1 h2 h3 h4 h5 h6 h7 h8
    obtain ⟨x1, e1, d1⟩ := getField_total "" h1
    obtain ⟨x2, e2, d2⟩ := getField_total 0 h2
    obtain ⟨x3, e3, d3⟩ := getField_total 0 h3
    obtain ⟨x4, e4, d4⟩ := getField_total "" h4
    obtain ⟨x5, e5, d5⟩ := getField_total "" h5
    obtain ⟨x6, e6, d6⟩ := getField_total "" h6
    obtain ⟨x7, e7, d7⟩ := getField_total "" h7
    obtain ⟨x8, e8, d8⟩ := getField_total 220.025 h8
    refine ⟨⟨x1, x2, x3, x4, x5, x6, x7, x8⟩, ?_,
      d1, d2, d3, d4, d5, d6, d7, d8⟩
    simp only [PlaylistItem.from_json, e1, e2, e3, e4, e5, e6, e7, e8,
      exceptBind_ok]
  · intro m h1 h2 h3 h4 h5 h6 h7 h8 h9
    obtain ⟨x1, e1, d1⟩ := getField_total "" h1
    obtain ⟨x2, e2, d2⟩ := getField_total 0 h2
    obtain ⟨x3, e3, d3⟩ := getField_total 0 h3
    obtain ⟨x4, e4, d4⟩ := getField_total 0 h4
    obtain ⟨x5, e5, d5⟩ := getField_total false h5
    obtain ⟨x6, e6, d6⟩ := getField_total "" h6
    obtain ⟨x7, e7, d7⟩ := getField_total 0 h7
    obtain ⟨x8, e8, d8⟩ := getField_total [] h8
    obtain ⟨x9, e9, d9⟩ := getField_total [] h9
    refine ⟨⟨x1, x2, x3, x4, x5, x6, x7, x8, x9⟩, ?_,
      d1, d2, d3, d4, d5, d6, d7, d8, d9⟩
    simp only [Playlist.from_json, e1, e2, e3, e4, e5, e6, e7, e8, e9,
      exceptBind_ok]

/-- C3 witness: the `PlaylistItem` conjunct at a mixed payload — `type`
and `enabled` present, the six other keys missing — decodes successfully
and the missing keys take their defaults, `duration = 220.025` among
them. -/
theorem c3_missing_key_defaults_witness :
    ∃ r, PlaylistItem.from_json
        (.obj [("type", .str "media"), ("enabled", .int 1)]) = .ok r
      ∧ (List.lookup "type"
          [("type", Json.str "media"), ("enabled", Json.int 1)] = none →
          r.type = "")
      ∧ (List.lookup "enabled"
          [("type", Json.str "media"), ("enabled", Json.int 1)] = none →
          r.enabled = 0)
      ∧ (List.lookup "playOnce"
          [("type", Json.str "media"), ("enabled", Json.int 1)] = none →
          r.playOnce = 0)
      ∧ (List.lookup "sequenceName"
          [("type", Json.str "media"), ("enabled", Json.int 1)] = none →
          r.sequenceName = "")
      ∧ (List.lookup "mediaName"
          [("type", Json.str "media"), ("enabled", Json.int 1)] = none →
          r.mediaName = "")
      ∧ (List.lookup "videoOut"
          [("type", Json.str "media"), ("enabled", Json.int 1)] = none →
          r.videoOut = "")
      ∧ (List.lookup "timecode"
          [("type", Json.str "media"), ("enabled", Json.int 1)] = none →
          r.timecode = "")
      ∧ (List.lookup "duration"
          [("type", Json.str "media"), ("enabled", Json.int 1)] = none →
          r.duration = 220.025) :=
  c3_missing_key_defaults.2.2.2.2.2.2.1
    [("type", .str "media"), ("enabled", .int 1)]
    (fun _ hv => ⟨"media", by injection hv with hv; rw [← hv]; rfl⟩)
    (fun _ hv => ⟨1, by injection hv with hv; rw [← hv]; rfl⟩)
    (fun _ hv => by cases hv) (fun _ hv => by cases hv)
    (fun _ hv => by cases hv) (fun _ hv => by cases hv)
    (fun _ hv => by cases hv) (fun _ hv => by cases hv)

/-! ### C4 -/

/-- C4: whichever of the three fetched responses (system status,
playlists, sequences) is the first to come back empty/falsy, `update()`
fails with `FPPEmptyResponseError` whose message names the host and that
sub-resource, the remaining requests are not issued, and the `_device`
slot — and hence every field of any previously constructed `Device` — is
left exactly as it was.  One conjunct per empty sub-resource. -/
theorem c4_empty_response_aborts (host : String)
    (dev0 : Option (Nat × Device)) (freshId : Nat)
    (resp : String → Except FPPException Json) :
    (∀ ss, resp "/api/system/status" = .ok ss → ss.truthy = false →
      FPP.update host dev0 freshId resp =
        ⟨.error (.FPPEmptyResponseError
            ("FPP device at " ++ host ++
              " returned an empty API response on system_status update")),
          dev0, ["/api/system/status"]⟩
      ∧ "/api/playlists" ∉ (FPP.update host dev0 freshId resp).requested
      ∧ "/api/sequence" ∉ (FPP.update host dev0 freshId resp).requested)
  ∧ (∀ ss pl, resp "/api/system/status" = .ok ss → ss.truthy = true →
      resp "/api/playlists" = .ok pl → pl.truthy = false →
      FPP.update host dev0 freshId resp =
        ⟨.error (.FPPEmptyResponseError
            ("FPP device at " ++ host ++
              " returned an empty API response on playlist update")),
          dev0, ["/api/system/status", "/api/playlists"]⟩
      ∧ "/api/sequence" ∉ (FPP.update host dev0 freshId resp).requested)
  ∧ (∀ ss pl sq, resp "/api/system/status" = .ok ss → ss.truthy = true →
      resp "/api/playlists" = .ok pl → pl.truthy = true →
      resp "/api/sequence" = .ok sq → sq.truthy = false →
      FPP.update host dev0 freshId resp =
        ⟨.error (.FPPEmptyResponseError
            ("FPP device at " ++ host ++
              " returned an empty API response on sequences update")),
          dev0, ["/api/system/status", "/api/playlists", "/api/sequence"]⟩) := by
  refine ⟨?_, ?_, ?_⟩
  · intro ss h1 h2
    have key : FPP.update host dev0 freshId resp =
        ⟨.error (.FPPEmptyResponseError (emptyMessageSystemStatus host)),
          dev0, ["/api/system/status"]⟩ := by
      simp [FPP.update, h1, h2]
    refine ⟨key, ?_, ?_⟩
    · rw [key]
      show "/api/playlists" ∉ ["/api/system/status"]
      decide
    · rw [key]
      show "/api/sequence" ∉ ["/api/system/status"]
      decide
  · intro ss pl h1 h2 h3 h4
    have key : FPP.update host dev0 freshId resp =
        ⟨.error (.FPPEmptyResponseError (emptyMessagePlaylists host)),
          dev0, ["/api/system/status", "/api/playlists"]⟩ := by
      simp [FPP.update, h1, h2, h3, h4]
    refine ⟨key, ?_⟩
    rw [key]
    show "/api/sequence" ∉ ["/api/system/status", "/api/playlists"]
    decide
  · intro ss pl sq h1 h2 h3 h4 h5 h6
    simp [FPP.update, h1, h2, h3, h4, h5, h6, emptyMessageSequences]

/-- C4 witness: three concrete second-call scenarios against a
previously constructed device — empty system status, empty playlists and
empty sequences respectively — each aborting with the matching message,
the matching request trace, and the device untouched. -/
theorem c4_empty_response_aborts_witness :
    FPP.update "example.com"
        (some (7, ⟨{ volume := 10 }, [{ name := "pl1" }], [{ name := "introA" }]⟩)) 8
        (fun _ => .ok (.obj [])) =
      ⟨.error (.FPPEmptyResponseError
          ("FPP device at " ++ "example.com" ++
            " returned an empty API response on system_status update")),
        some (7, ⟨{ volume := 10 }, [{ name := "pl1" }], [{ name := "introA" }]⟩),
        ["/api/system/status"]⟩
  ∧ FPP.update "example.com"
        (some (7, ⟨{ volume := 10 }, [{ name := "pl1" }], [{ name := "introA" }]⟩)) 8
        (fun uri =>
          if uri = "/api/system/status" then .ok (.obj [("volume", .int 42)])
          else .ok (.arr [])) =
      ⟨.error (.FPPEmptyResponseError
          ("FPP device at " ++ "example.com" ++
            " returned an empty API response on playlist update")),
        some (7, ⟨{ volume := 10 }, [{ name := "pl1" }], [{ name := "introA" }]⟩),
        ["/api/system/status", "/api/playlists"]⟩
  ∧ FPP.update "example.com"
        (some (7, ⟨{ volume := 10 }, [{ name := "pl1" }], [{ name := "introA" }]⟩)) 8
        (fun uri =>
          if uri = "/api/system/status" then .ok (.obj [("volume", .int 42)])
          else if uri = "/api/playlists" then .ok (.arr [.str "pl1"])
          else .ok (.arr [])) =
      ⟨.error (.FPPEmptyResponseError
          ("FPP device at " ++ "example.com" ++
            " returned an empty API response on sequences update")),
        some (7, ⟨{ volume := 10 }, [{ name := "pl1" }], [{ name := "introA" }]⟩),
        ["/api/system/status", "/api/playlists", "/api/sequence"]⟩ :=
  ⟨((c4_empty_response_aborts "example.com"
      (some (7, ⟨{ volume := 10 }, [{ name := "pl1" }], [{ name := "introA" }]⟩)) 8
      (fun _ => .ok (.obj []))).1 (.obj []) rfl rfl).1,
   ((c4_empty_response_aborts "example.com"
      (some (7, ⟨{ volume := 10 }, [{ name := "pl1" }], [{ name := "introA" }]⟩)) 8
      (fun uri =>
        if uri = "/api/system/status" then .ok (.obj [("volume", .int 42)])
        else .ok (.arr []))).2.1
      (.obj [("volume", .int 42)]) (.arr []) rfl rfl rfl rfl).1,
   (c4_empty_response_aborts "example.com"
      (some (7, ⟨{ volume := 10 }, [{ name := "pl1" }], [{ name := "introA" }]⟩)) 8
      (fun uri =>
        if uri = "/api/system/status" then .ok (.obj [("volume", .int 42)])
        else if uri = "/api/playlists" then .ok (.arr [.str "pl1"])
        else .ok (.arr []))).2.2
      (.obj [("volume", .int 42)]) (.arr [.str "pl1"]) (.arr [])
      rfl rfl rfl rfl rfl rfl⟩

/-! ### C5 -/

/-- C5: once a `Device` exists (identity `devId`), a later successful
`update()` whose three responses decode returns the same identity
`devId` — not the fresh identity a reconstruction would use — with its
`system_status` replaced by the decoded second payload, so
`system_status.volume` equals the second call's volume; and the session's
`_device` slot holds that same identity.  External holders of the
earlier reference therefore observe the update. -/
theorem c5_same_device_identity (host : String) (devId freshId : Nat)
    (d1 : Device) (resp2 : String → Except FPPException Json)
    (ss2 pl2 sq2 : Json) (st2 : SystemStatus)
    (plElems sqElems : List Json) (ps : List Playlist) (qs : List Sequence)
    (h1 : resp2 "/api/system/status" = .ok ss2) (h1t : ss2.truthy = true)
    (h1d : SystemStatus.from_json ss2 = .ok st2)
    (h2 : resp2 "/api/playlists" = .ok pl2) (h2t : pl2.truthy = true)
    (h2i : pl2.iterate = .ok plElems)
    (h2d : decodeEach Playlist.from_json plElems = .ok ps)
    (h3 : resp2 "/api/sequence" = .ok sq2) (h3t : sq2.truthy = true)
    (h3i : sq2.iterate = .ok sqElems)
    (h3d : decodeEach Sequence.from_json sqElems = .ok qs) :
    FPP.update host (some (devId, d1)) freshId resp2 =
      ⟨.ok (devId, ⟨st2, ps, qs⟩), some (devId, ⟨st2, ps, qs⟩),
        ["/api/system/status", "/api/playlists", "/api/sequence"]⟩
    ∧ (⟨st2, ps, qs⟩ : Device).system_status.volume = st2.volume := by
  refine ⟨?_, rfl⟩
  simp [FPP.update, h1, h1t, h2, h2t, h3, h3t, Device.update_from_dict,
    h1d, h2i, h2d, h3i, h3d, List.lookup]

/-- C5 witness: a first `update()` constructs the device with volume 10
and identity 0; a second `update()` with volume 42 in its system-status
payload keeps identity 0 and yields volume 42 (and 42 differs from 10). -/
theorem c5_same_device_identity_witness :
    FPP.update "example.com" none 0 (fun uri =>
        if uri = "/api/system/status" then .ok (.obj [("volume", .int 10)])
        else if uri = "/api/playlists" then .ok (.arr [.str "pl1"])
        else .ok (.arr [.str "introA"])) =
      ⟨.ok (0, ⟨{ volume := 10 }, [{ name := "pl1" }], [{ name := "introA" }]⟩),
        some (0, ⟨{ volume := 10 }, [{ name := "pl1" }], [{ name := "introA" }]⟩),
        ["/api/system/status", "/api/playlists", "/api/sequence"]⟩
    ∧ FPP.update "example.com"
        (some (0, ⟨{ volume := 10 }, [{ name := "pl1" }], [{ name := "introA" }]⟩)) 1
        (fun uri =>
          if uri = "/api/system/status" then .ok (.obj [("volume", .int 42)])
          else if uri = "/api/playlists" then .ok (.arr [.obj [("name", .str "pl1")]])
          else .ok (.arr [.obj [("name", .str "introA")]])) =
      ⟨.ok (0, ⟨{ volume := 42 }, [{ name := "pl1" }], [{ name := "introA" }]⟩),
        some (0, ⟨{ volume := 42 }, [{ name := "pl1" }], [{ name := "introA" }]⟩),
        ["/api/system/status", "/api/playlists", "/api/sequence"]⟩
    ∧ (42 : Int) ≠ 10 :=
  ⟨rfl,
   (c5_same_device_identity "example.com" 0 1
      ⟨{ volume := 10 }, [{ name := "pl1" }], [{ name := "introA" }]⟩
      _ (.obj [("volume", .int 42)]) (.arr [.obj [("name", .str "pl1")]])
      (.arr [.obj [("name", .str "introA")]]) { volume := 42 }
      [.obj [("name", .str "pl1")]] [.obj [("name", .str "introA")]]
      [{ name := "pl1" }] [{ name := "introA" }]
      rfl rfl rfl rfl rfl rfl rfl rfl rfl rfl rfl).1,
   by decide⟩

/-! ### C6 -/

/-- C6: a `request()` whose first attempt receives an HTTP status in the
4xx/5xx range fails (after exactly 1 attempt, no retry) with `FPPError`
carrying the status code and — when the response's Content-Type is the
JSON media type — the decoded JSON body, otherwise carrying the raw body
text (wrapped under the `message` key). -/
theorem c6_http_error_payload (host : String) (outcomes : Nat → HttpOutcome)
    (status : Nat) (ct body : String)
    (h : outcomes 0 = .response status ct body)
    (hs : status / 100 = 4 ∨ status / 100 = 5) :
    (∀ j, ct = "application/json" → Json.parse body = some j →
      FPP.request host outcomes = (.error (.FPPError status j), 1))
  ∧ (ct ≠ "application/json" →
      FPP.request host outcomes =
        (.error (.FPPError status (.obj [("message", .str body)])), 1)) := by
  have hb : (status / 100 == 4 || status / 100 == 5) = true := by
    rcases hs with h' | h' <;> simp [h']
  constructor
  · intro j hct hp
    simp [FPP.request, requestWithBackoff, h, requestOnce, hb, hct, hp,
      FPPException.isFPPConnectionError]
  · intro hct
    have hct' : (ct == "application/json") = false := by
      simp [hct]
    simp [FPP.request, requestWithBackoff, h, requestOnce, hb, hct',
      FPPException.isFPPConnectionError]

/-- C6 witness: HTTP 500 with JSON body and exact JSON content type
fails with `FPPError` carrying 500 and the decoded body. -/
theorem c6_http_error_payload_witness :
    FPP.request "example.com"
      (fun _ => .response 500 "application/json" "\x7b\"status\":\"nok\"\x7d") =
    (.error (.FPPError 500 (.obj [("status", .str "nok")])), 1) :=
  (c6_http_error_payload "example.com"
    (fun _ => .response 500 "application/json" "\x7b\"status\":\"nok\"\x7d")
    500 "application/json" "\x7b\"status\":\"nok\"\x7d" rfl (.inr rfl)).1
    (.obj [("status", .str "nok")]) rfl rfl

/-! ### C7 -/

/-- C7: decoding a `Device` payload whose `sequences` entry is the bare
list `["introA", "introB"]` through the full-decode path
(`Device.from_dict`, which runs `__pre_deserialize__`) yields exactly
two `Sequence` records with names `"introA"` and `"introB"`, in original
order. -/
theorem c7_bare_sequence_list_decode :
    (Device.from_dict
        [("system_status", .obj []), ("playlists", .arr [.str "pl1"]),
         ("sequences", .arr [.str "introA", .str "introB"])]).map
      (fun d => d.sequences) =
      .ok [{ name := "introA" }, { name := "introB" }] := rfl

/-! ### C8 -/

/-- C8: a fully-populated `SystemStatus` payload — one in which every
documented field is present with a well-typed, non-null value, i.e. the
canonical encoding of some record — decodes successfully, re-encodes to
the identical payload (every populated defined field preserved with an
identical value), and the re-encoded output contains no null member at
all (no field of the model is optional-typed, so under full population
nothing decodes to null and `omit_none` omits nothing; the omit-null
clause holds vacuously). -/
theorem c8_system_status_roundtrip (p : Json) (s : SystemStatus)
    (h : p = SystemStatus.to_json s) :
    SystemStatus.from_json p = .ok s ∧ SystemStatus.to_json s = p ∧
    ∀ m, p = Json.obj m → ∀ kv ∈ m, kv.2 ≠ Json.null := by
  subst h
  refine ⟨systemStatus_roundtrip s, rfl, ?_⟩
  intro m hm
  rw [SystemStatus.to_json] at hm
  injection hm with hm
  subst hm
  intro kv hkv
  fin_cases hkv <;>
    simp [MQTTStatus.to_json, CurrentPlaylist.to_json,
      SystemStatusAdvanceView.to_json]

/-- C8 witness: the round trip at a concrete fully-populated payload. -/
theorem c8_system_status_roundtrip_witness :
    SystemStatus.from_json
      (SystemStatus.to_json
        { MQTT := { configured := true, connected := true },
          fppd := "running", mode := 2, mode_name := "player",
          status_name := "playing", volume := 42,
          current_sequence := "introA.fseq", current_song := "song.mp3",
          current_playlist :=
            { count := 4, description := "Full Test 1", index := 2,
              playlist := "Test1", type := "pause" },
          seconds_played := 10, seconds_elapsed := 11,
          seconds_remaining := 12, repeat_mode := 1,
          advancedView :=
            { HostName := "fpp", Platform := "Raspberry Pi",
              Version := "7.0", majorVersion := 7,
              Utilization := { CPU := 1/2, Memory := 3/4, Uptime := "1 day" },
              IPs := ["192.168.1.2", "10.0.0.3"] } }) =
    .ok { MQTT := { configured := true, connected := true },
          fppd := "running", mode := 2, mode_name := "player",
          status_name := "playing", volume := 42,
          current_sequence := "introA.fseq", current_song := "song.mp3",
          current_playlist :=
            { count := 4, description := "Full Test 1", index := 2,
              playlist := "Test1", type := "pause" },
          seconds_played := 10, seconds_elapsed := 11,
          seconds_remaining := 12, repeat_mode := 1,
          advancedView :=
            { HostName := "fpp", Platform := "Raspberry Pi",
              Version := "7.0", majorVersion := 7,
              Utilization := { CPU := 1/2, Memory := 3/4, Uptime := "1 day" },
              IPs := ["192.168.1.2", "10.0.0.3"] } } :=
  (c8_system_status_roundtrip _ _ rfl).1

/-! ### C9 -/

/-- C9: if the caller supplied its own session at construction, no
number of lazily-creating `request()` entries ever makes `close()` close
it (first conjunct); if the client created the session itself on first
use, `__aexit__` releases it whether the body completed normally
(`exc = none`) or raised (`exc = some _`), after any number of further
`request()` entries (second conjunct); and `close()` mutates no client
state whatsoever (third conjunct). -/
theorem c9_close_ownership :
    (∀ host sid l, (FPP.close (applyEnsures (FPP.make host (some sid)) l)).2 = false)
  ∧ (∀ host fresh l exc,
      (FPP.aexit (applyEnsures (ensureSession (FPP.make host none) fresh) l) exc).2 = true)
  ∧ (∀ st : FPP, (FPP.close st).1 = st) := by
  have ensure_some : ∀ (st : FPP) (n : Nat), st.session.isSome = true →
      ensureSession st n = st := by
    intro st n h
    unfold ensureSession
    cases hs : st.session with
    | some s => rfl
    | none => rw [hs] at h; cases h
  have apply_some : ∀ (l : List Nat) (st : FPP), st.session.isSome = true →
      applyEnsures st l = st := by
    intro l
    induction l with
    | nil => intro st _; rfl
    | cons n l ih =>
      intro st h
      show applyEnsures (ensureSession st n) l = st
      rw [ensure_some st n h, ih st h]
  refine ⟨?_, ?_, ?_⟩
  · intro host sid l
    rw [apply_some l (FPP.make host (some sid)) rfl]
    rfl
  · intro host fresh l exc
    rw [apply_some l (ensureSession (FPP.make host none) fresh) rfl]
    rfl
  · intro st
    unfold FPP.close
    split <;> rfl

/-! ### C10 -/

/-- C10: in the 4xx/5xx branch of `request()` the body is JSON-decoded
only when the Content-Type equals `"application/json"` exactly (any
other value — including one merely containing the JSON media type —
yields the raw text wrapped as a `message` dict), whereas the success
branch JSON-decodes whenever the Content-Type contains
`"application/json"`; hence an error response with Content-Type
`"application/json; charset=utf-8"` carries the wrapped raw text while
the same header on a success response is decoded. -/
theorem c10_content_type_asymmetry :
    (∀ host status ct body, (status / 100 = 4 ∨ status / 100 = 5) →
      ct ≠ "application/json" →
      requestOnce host (.response status ct body) =
        .error (.FPPError status (.obj [("message", .str body)])))
  ∧ (∀ host ct body j, strContains ct "application/json" = true →
      Json.parse body = some j →
      requestOnce host (.response 200 ct body) = .ok j)
  ∧ (strContains "application/json; charset=utf-8" "application/json" = true)
  ∧ (requestOnce "example.com"
      (.response 500 "application/json; charset=utf-8" "\x7b\"status\":\"nok\"\x7d") =
      .error (.FPPError 500
        (.obj [("message", .str "\x7b\"status\":\"nok\"\x7d")])))
  ∧ (requestOnce "example.com"
      (.response 200 "application/json; charset=utf-8" "\x7b\"status\":\"nok\"\x7d") =
      .ok (.obj [("status", .str "nok")])) := by
  refine ⟨?_, ?_, rfl, rfl, rfl⟩
  · intro host status ct body hs hct
    have hb : (status / 100 == 4 || status / 100 == 5) = true := by
      rcases hs with h' | h' <;> simp [h']
    have hct' : (ct == "application/json") = false := by simp [hct]
    simp [requestOnce, hb, hct']
  · intro host ct body j hc hp
    simp [requestOnce, hc, hp]

/-- C10 witness: the general conjuncts applied at the charset-suffixed
header. -/
theorem c10_content_type_asymmetry_witness :
    requestOnce "example.com"
      (.response 404 "application/json; charset=utf-8" "nope") =
      .error (.FPPError 404 (.obj [("message", .str "nope")])) ∧
    requestOnce "example.com"
      (.response 200 "application/json; charset=utf-8" "\x7b\"ok\":true\x7d") =
      .ok (.obj [("ok", .bool true)]) :=
  ⟨c10_content_type_asymmetry.1 "example.com" 404
      "application/json; charset=utf-8" "nope" (.inl rfl) (by decide),
   c10_content_type_asymmetry.2.1 "example.com"
      "application/json; charset=utf-8" "\x7b\"ok\":true\x7d"
      (.obj [("ok", .bool true)]) rfl rfl⟩

end FPPClient
